import Mathlib

/-!
Shallow embedding of the live-transcription session manager of the
VOICE-DICTATION repository (`src/KMCH-main/flaskapp5.py` and
`src/KMCH-main/deepgram_service.py`).

The embedding models the per-process state (`active_transcriptions`, the
`DeepgramService` object's mutable fields) explicitly, and the Socket.IO
handlers as functions from state and inputs to (state, emitted events).
Interactions with the outside world (the Deepgram connection outcome, the
Gemini LLM response, file writes) are passed in as explicit parameters,
matching the points where the Python code awaits an external call or catches
an exception raised by one.
-/

namespace VoiceDictation

/-! ## Python-dict operations

`active_transcriptions` is a module-level Python `dict` keyed by the
Socket.IO `request.sid`.  We model it as an association list with unique
keys maintained by the operations below.  `dictInsert` models
`d[k] = v` (replace or add), `dictRemove` models `del d[k]` restricted to
its effect on the mapping, `updateSession` models in-place mutation of the
stored (shared, mutable) session object. -/

abbrev Sid := String

def dictGet {α : Type} (reg : List (Sid × α)) (k : Sid) : Option α :=
  (reg.find? (fun p => p.1 == k)).map (·.2)

def dictContains {α : Type} (reg : List (Sid × α)) (k : Sid) : Bool :=
  (dictGet reg k).isSome

def dictRemove {α : Type} (reg : List (Sid × α)) (k : Sid) : List (Sid × α) :=
  reg.filter (fun p => p.1 != k)

def dictInsert {α : Type} (reg : List (Sid × α)) (k : Sid) (v : α) :
    List (Sid × α) :=
  dictRemove reg k ++ [(k, v)]

def updateSession {α : Type} (reg : List (Sid × α)) (k : Sid) (f : α → α) :
    List (Sid × α) :=
  reg.map (fun p => if p.1 == k then (p.1, f p.2) else p)

/-- Number of entries stored under key `k` (to state "exactly one active
session per identifier"). -/
def countKey {α : Type} (reg : List (Sid × α)) (k : Sid) : Nat :=
  (reg.filter (fun p => p.1 == k)).length

/-- Whitespace for Python `str.strip()` (ASCII subset; the transcripts at
issue are ASCII). -/
def isPyWs (c : Char) : Bool :=
  c == ' ' || c == '\t' || c == '\n' || c == '\r' ||
    c == Char.ofNat 11 || c == Char.ofNat 12

/-- Models Python `str.strip()`: remove leading and trailing whitespace. -/
def pyStrip (s : String) : String :=
  String.mk (((s.toList.dropWhile isPyWs).reverse.dropWhile isPyWs).reverse)

/-- Models Python slicing `s[:n]` on text. -/
def pyTake (s : String) (n : Nat) : String :=
  String.mk (s.toList.take n)

/-! ## DeepgramService (deepgram_service.py)

Mutable fields of the `DeepgramService` object: `final_transcript`,
`last_interim`, `active`, and whether `self.connection` is set. -/

structure DGState where
  final_transcript : String
  last_interim : String
  active : Bool
  has_connection : Bool
deriving DecidableEq

namespace DeepgramService

/-- Constructor `DeepgramService.__init__`: raises `RuntimeError` when the
`DEEPGRAM_API_KEY` environment variable is missing, otherwise produces the
initial field values (`connection = None`, empty transcripts, inactive). -/
def init (api_key_present : Bool) : Except String DGState :=
  if api_key_present then
    .ok { final_transcript := "", last_interim := "", active := false,
          has_connection := false }
  else
    .error "DEEPGRAM_API_KEY missing"

/-- Method `DeepgramService.start_transcription`: resets both transcript buffers,
creates the live connection object, and awaits `connection.start(options)`.
`upstream_ok` is the outcome of that external call (`False` also covers an
exception raised by it, which the method catches and turns into `False`).
Only on success does `self.active` become `True`. -/
def start_transcription (s : DGState) (upstream_ok : Bool) : DGState × Bool :=
  let s1 : DGState :=
    { s with final_transcript := "", last_interim := "", has_connection := true }
  if upstream_ok then ({ s1 with active := true }, true) else (s1, false)

/-- One transcription result message from Deepgram, as inspected by
`on_message`: whether `result.channel.alternatives` is non-empty, the
`transcript` text of the first alternative, and the `is_final` flag. -/
structure TranscriptEvent where
  has_alternatives : Bool
  transcript : String
  is_final : Bool
deriving DecidableEq

/-- The `on_message` handler registered for `LiveTranscriptionEvents.Transcript`.
Returns the mutated service state, and `some (sentence, is_final)` when the
client callback was invoked (it is invoked for every non-empty sentence).
Messages with no alternatives or an empty transcript are dropped before the
`is_final` test.  Final sentences are appended to `final_transcript` with a
trailing space and clear `last_interim`; interim sentences only overwrite
`last_interim`. -/
def on_message (s : DGState) (e : TranscriptEvent) :
    DGState × Option (String × Bool) :=
  if !e.has_alternatives then (s, none)
  else if e.transcript == "" then (s, none)
  else if e.is_final then
    ({ s with final_transcript := s.final_transcript ++ e.transcript ++ " ",
              last_interim := "" },
     some (e.transcript, true))
  else
    ({ s with last_interim := e.transcript }, some (e.transcript, false))

/-- Method `DeepgramService.send_audio`: forwards a chunk when a connection exists
and the service is active; any send error (`send_ok = false`) is caught and
reported as `False` without touching the service state. -/
def send_audio (s : DGState) (send_ok : Bool) : Bool :=
  if s.has_connection && s.active then send_ok else false

/-- Method `DeepgramService.finish`: marks the service inactive, closes the
connection if any, and returns `final_transcript.strip()`.  Exceptions are
caught and the same stripped transcript is returned. -/
def finish (s : DGState) : DGState × String :=
  ({ s with active := false }, pyStrip s.final_transcript)

end DeepgramService

export DeepgramService (TranscriptEvent)

/-! ## Session registry entries (flaskapp5.py)

The value stored in `active_transcriptions[request.sid]` by
`handle_start_live_transcription`. -/

structure Session where
  service : DGState
  language_code : String
  transcript_parts : List String
  interim_transcript : String
  start_time : Nat
deriving DecidableEq

abbrev Registry := List (Sid × Session)

/-! ## JSON values and `json.loads`

`generate_structured_medical_summary` calls `json.loads` on a substring of
the LLM response and lets any `json.JSONDecodeError` propagate.  We embed a
JSON value type and a total, fuel-indexed parser for the JSON grammar:
objects, arrays, strings, numbers (kept as their source literal, since no
claim depends on numeric semantics), booleans and null, with arbitrary
whitespace, and rejection of trailing garbage.  Simplification: inside
string literals a backslash escape `\c` is decoded for the common escapes
and taken literally otherwise (Python additionally rejects unknown escapes
and decodes `\uXXXX`; no claim exercises those). -/

inductive JsonVal where
  | null
  | bool (b : Bool)
  | num (lit : String)
  | str (s : String)
  | arr (items : List JsonVal)
  | obj (fields : List (String × JsonVal))

def lbrace : Char := Char.ofNat 123

def rbrace : Char := Char.ofNat 125

def isJsonWs (c : Char) : Bool :=
  c == ' ' || c == '\t' || c == '\n' || c == '\r'

def skipWs (cs : List Char) : List Char :=
  cs.dropWhile isJsonWs

def unescapeChar (c : Char) : Char :=
  if c == 'n' then '\n'
  else if c == 't' then '\t'
  else if c == 'r' then '\r'
  else c

/-- Parse the body of a JSON string literal (the opening quote already
consumed); returns the decoded characters and the rest of the input. -/
def parseStringBody : List Char → Option (List Char × List Char)
  | [] => none
  | '"' :: rest => some ([], rest)
  | '\\' :: c :: rest =>
      (parseStringBody rest).map (fun p => (unescapeChar c :: p.1, p.2))
  | c :: rest =>
      (parseStringBody rest).map (fun p => (c :: p.1, p.2))

/-- Lex a JSON number literal: optional minus, integer digits, optional
fraction and exponent.  Returns the literal text and the rest. -/
def lexNumber (cs : List Char) : Option (String × List Char) :=
  let (sign, cs1) :=
    match cs with
    | '-' :: rest => ("-", rest)
    | _ => ("", cs)
  let intPart := cs1.takeWhile Char.isDigit
  let cs2 := cs1.dropWhile Char.isDigit
  if intPart.isEmpty then none
  else
    let (frac, cs3) :=
      match cs2 with
      | '.' :: rest =>
          let ds := rest.takeWhile Char.isDigit
          if ds.isEmpty then ([], cs2)
          else ('.' :: ds, rest.dropWhile Char.isDigit)
      | _ => ([], cs2)
    let (expo, cs4) :=
      match cs3 with
      | e :: rest =>
          if e == 'e' || e == 'E' then
            let (sg, rest1) :=
              match rest with
              | '+' :: r => (['+'], r)
              | '-' :: r => (['-'], r)
              | _ => ([], rest)
            let ds := rest1.takeWhile Char.isDigit
            if ds.isEmpty then ([], cs3)
            else (e :: (sg ++ ds), rest1.dropWhile Char.isDigit)
          else ([], cs3)
      | _ => ([], cs3)
    some (sign ++ String.mk (intPart ++ frac ++ expo), cs4)

mutual

/-- Parse one JSON value after skipping leading whitespace. -/
def parseVal : Nat → List Char → Option (JsonVal × List Char)
  | 0, _ => none
  | fuel + 1, cs =>
    match skipWs cs with
    | 'n' :: 'u' :: 'l' :: 'l' :: rest => some (.null, rest)
    | 't' :: 'r' :: 'u' :: 'e' :: rest => some (.bool true, rest)
    | 'f' :: 'a' :: 'l' :: 's' :: 'e' :: rest => some (.bool false, rest)
    | '"' :: rest =>
        (parseStringBody rest).map (fun p => (.str (String.mk p.1), p.2))
    | '[' :: rest =>
        (match skipWs rest with
         | ']' :: rest1 => some (.arr [], rest1)
         | _ => (parseItems fuel rest).map (fun p => (.arr p.1, p.2)))
    | c :: rest =>
        if c == lbrace then
          match skipWs rest with
          | d :: rest1 =>
              if d == rbrace then some (.obj [], rest1)
              else (parseMembers fuel rest).map (fun p => (.obj p.1, p.2))
          | [] => none
        else if c == '-' || c.isDigit then
          (lexNumber (c :: rest)).map (fun p => (.num p.1, p.2))
        else none
    | [] => none

/-- Parse a non-empty comma-separated list of array items, up to and
including the closing `]`. -/
def parseItems : Nat → List Char → Option (List JsonVal × List Char)
  | 0, _ => none
  | fuel + 1, cs =>
    match parseVal fuel cs with
    | none => none
    | some (v, rest) =>
      match skipWs rest with
      | ',' :: rest1 =>
          (parseItems fuel rest1).map (fun p => (v :: p.1, p.2))
      | ']' :: rest1 => some ([v], rest1)
      | _ => none

/-- Parse a non-empty comma-separated list of object members, up to and
including the closing brace. -/
def parseMembers : Nat → List Char →
    Option (List (String × JsonVal) × List Char)
  | 0, _ => none
  | fuel + 1, cs =>
    match skipWs cs with
    | '"' :: rest =>
      match parseStringBody rest with
      | none => none
      | some (key, rest1) =>
        match skipWs rest1 with
        | ':' :: rest2 =>
          match parseVal fuel rest2 with
          | none => none
          | some (v, rest3) =>
            match skipWs rest3 with
            | ',' :: rest4 =>
                (parseMembers fuel rest4).map
                  (fun p => ((String.mk key, v) :: p.1, p.2))
            | d :: rest4 =>
                if d == rbrace then some ([(String.mk key, v)], rest4)
                else none
            | [] => none
        | _ => none
    | _ => none

end

/-- Models `json.loads`: parse the whole string as a single JSON value; anything
left over besides whitespace is an error (`none` models a raised
`json.JSONDecodeError`). -/
def json_loads (s : String) : Option JsonVal :=
  match parseVal (2 * s.length + 4) s.toList with
  | some (v, rest) => if skipWs rest = [] then some v else none
  | none => none

/-! ## Summary generation (flaskapp5.py, `generate_structured_medical_summary`)

The Gemini call itself is external; this function receives its `response.text`
and performs the brace-scanning extraction.  `.error` models a propagated
`json.JSONDecodeError`. -/

/-- Index of the first occurrence of `c` in `cs` (Python `str.find`,
with `none` for `-1`). -/
def findIdx (cs : List Char) (c : Char) : Option Nat :=
  match cs with
  | [] => none
  | x :: xs => if x == c then some 0 else (findIdx xs c).map (· + 1)

/-- Index of the last occurrence of `c` in `cs` (Python `str.rfind`,
with `none` for `-1`). -/
def rfindIdx (cs : List Char) (c : Char) : Option Nat :=
  (findIdx cs.reverse c).map (fun i => cs.length - 1 - i)

/-- Python slice `cs[a:b]`. -/
def sliceChars (cs : List Char) (a b : Nat) : List Char :=
  (cs.drop a).take (b - a)

/-- The fallback dictionary returned when the response contains no opening
brace or no closing brace: `summary` is the first 200 characters of the
input text, the other fields are fixed placeholder strings. -/
def placeholderSummary (translation : String) : JsonVal :=
  .obj [("summary", .str (pyTake translation 200)),
        ("medical_condition", .str "Not extracted"),
        ("treatment_plan", .str "Not extracted"),
        ("followup_date", .str "Not specified")]

/-- Function `generate_structured_medical_summary(model, translation)` after the
external `model.generate_content` call returned `response_text`:
strip the response, find the first opening brace and the last closing brace;
when both exist, `json.loads` the inclusive slice between them, letting a
decode error propagate; otherwise return the placeholder dictionary. -/
def generate_structured_medical_summary (translation response_text : String) :
    Except String JsonVal :=
  let rt := pyStrip response_text
  let cs := rt.toList
  match findIdx cs lbrace, rfindIdx cs rbrace with
  | some json_start, some json_end =>
      let json_str := String.mk (sliceChars cs json_start (json_end + 1))
      match json_loads json_str with
      | some v => .ok v
      | none => .error "JSONDecodeError"
  | some _, none => .ok (placeholderSummary translation)
  | none, _ => .ok (placeholderSummary translation)

/-! ## Events emitted to the client -/

inductive Emit where
  | connection_status (status message : String)
  | transcription_started
  | live_transcription_error (error : String)
  | live_transcript (transcript : String) (is_final : Bool)
  | live_transcription_complete (original_transcript : String)
      (english_transcript : String) (summary_data : JsonVal)
      (recording_file : String)

def Emit.isError : Emit → Bool
  | .live_transcription_error _ => true
  | _ => false

def Emit.isComplete : Emit → Bool
  | .live_transcription_complete _ _ _ _ => true
  | _ => false

/-! ## Socket.IO event handlers (flaskapp5.py)

Each handler takes the current `active_transcriptions` registry, the
client's `request.sid`, the event payload, and the outcomes of the external
calls it performs, and returns the new registry together with the events
emitted to that client, in order. -/

/-- Handler `handle_start_live_transcription`.  Reads `language_code` from the
payload with default `"en-US"`, constructs a `DeepgramService` (which raises
when the API key is missing — caught by the handler's `except`, which emits
`live_transcription_error` and leaves the registry untouched), then stores a
fresh session dict under `request.sid` — overwriting any existing entry,
with no duplicate check — spawns a background thread running
`start_transcription` on the shared service object (its boolean result is
ignored), sleeps, and emits `transcription_started` unconditionally.
`upstream_ok` is the outcome of `connection.start` inside that thread; the
stored service state reflects it (shared mutation) but the reply does not. -/
def handle_start_live_transcription (reg : Registry) (sid : Sid)
    (language_code_arg : Option String) (api_key_present : Bool)
    (upstream_ok : Bool) (now : Nat) : Registry × List Emit :=
  let language_code := language_code_arg.getD "en-US"
  match DeepgramService.init api_key_present with
  | .error e => (reg, [.live_transcription_error e])
  | .ok dg0 =>
    let dg1 := (DeepgramService.start_transcription dg0 upstream_ok).1
    let sd : Session :=
      { service := dg1, language_code := language_code,
        transcript_parts := [], interim_transcript := "", start_time := now }
    (dictInsert reg sid sd, [.transcription_started])

/-- The `send_transcript_to_client` callback closed over `request.sid`:
looks the session up (returning silently when it is gone), appends final
text to `transcript_parts` and clears `interim_transcript`, or overwrites
`interim_transcript` for interim text (in-place mutation of the stored
session dict), then emits a `live_transcript` event. -/
def send_transcript_to_client (reg : Registry) (sid : Sid)
    (transcript : String) (is_final : Bool) : Registry × List Emit :=
  match dictGet reg sid with
  | none => (reg, [])
  | some _ =>
    let reg1 := updateSession reg sid (fun sd =>
      if is_final then
        { sd with transcript_parts := sd.transcript_parts ++ [transcript],
                  interim_transcript := "" }
      else { sd with interim_transcript := transcript })
    (reg1, [.live_transcript transcript is_final])

/-- Delivery of one Deepgram transcript message for the session registered
under `sid`: `on_message` mutates the shared service object stored in the
session, and invokes `send_transcript_to_client` when it produced a
sentence.  (When no session is registered under `sid` there is no tracked
service object to deliver to, and nothing happens.) -/
def deliver_transcript_event (reg : Registry) (sid : Sid)
    (e : TranscriptEvent) : Registry × List Emit :=
  match dictGet reg sid with
  | none => (reg, [])
  | some sd =>
    let (dg1, cb) := DeepgramService.on_message sd.service e
    let reg1 := updateSession reg sid (fun s => { s with service := dg1 })
    match cb with
    | none => (reg1, [])
    | some (t, fin) => send_transcript_to_client reg1 sid t fin

/-- Deliver a list of transcript messages in order; the claims below are
about the resulting registry, so only it is threaded through. -/
def run_transcript_events (reg : Registry) (sid : Sid)
    (es : List TranscriptEvent) : Registry :=
  es.foldl (fun r e => (deliver_transcript_event r sid e).1) reg

/-- Handler `handle_audio_chunk`: returns silently when no session is registered;
otherwise decodes the base64 audio and forwards it on a background thread
via `DeepgramService.send_audio`, which never mutates the session state.
Either way the registry is unchanged and nothing is emitted. -/
def handle_audio_chunk (reg : Registry) (_sid : Sid) : Registry × List Emit :=
  (reg, [])

/-- Handler `handle_disconnect`: when a session is registered for the departing
client, `finish` its service and delete the entry; otherwise do nothing
(deleting a missing id is never attempted, so no error can occur). -/
def handle_disconnect (reg : Registry) (sid : Sid) : Registry :=
  if dictContains reg sid then dictRemove reg sid else reg

/-- The `finalize_transcription` closure run on a background thread by
`handle_stop_live_transcription` once the session was found: `finish` the
service to obtain the stripped final transcript, then inside a `try`:
initialize Gemini and call `generate_structured_medical_summary` (the
external LLM call's outcome is `llm_result`: `.error` for a raised
exception, `.ok response_text` for a reply), write the transcript file
(`write_ok = false` models a raised I/O error), and emit
`live_transcription_complete` with `english_transcript` set to the same
final transcript.  Any exception is caught and turned into a
`live_transcription_error`.  After the `try/except`, the session entry is
deleted unconditionally. -/
def finalize_transcription (reg : Registry) (sid : Sid) (sd : Session)
    (llm_result : Except String String) (write_ok : Bool)
    (recording_file : String) : Registry × List Emit :=
  let final_transcript := (DeepgramService.finish sd.service).2
  let ev : Emit :=
    match llm_result with
    | .error e => .live_transcription_error ("Failed to process transcript: " ++ e)
    | .ok response_text =>
      match generate_structured_medical_summary final_transcript response_text with
      | .error e =>
          .live_transcription_error ("Failed to process transcript: " ++ e)
      | .ok summary_data =>
          if write_ok then
            .live_transcription_complete final_transcript final_transcript
              summary_data recording_file
          else
            .live_transcription_error
              "Failed to process transcript: write failed"
  (dictRemove reg sid, [ev])

/-- Handler `handle_stop_live_transcription`: when no session is registered for
`sid`, emit `live_transcription_error` with the message
`"No active transcription session"` and return; otherwise run
`finalize_transcription` for the registered session. -/
def handle_stop_live_transcription (reg : Registry) (sid : Sid)
    (llm_result : Except String String) (write_ok : Bool)
    (recording_file : String) : Registry × List Emit :=
  match dictGet reg sid with
  | none => (reg, [.live_transcription_error "No active transcription session"])
  | some sd => finalize_transcription reg sid sd llm_result write_ok recording_file

/-! ## Derived descriptions of event sequences, used in theorem statements -/

/-- The texts of all events flagged final (what claim C5/C6 say is
committed). -/
def finalTexts (es : List TranscriptEvent) : List String :=
  (es.filter (fun e => e.is_final)).map (fun e => e.transcript)

/-- The texts actually committed by `on_message`: final events that carry an
alternative with a non-empty transcript. -/
def committedTexts (es : List TranscriptEvent) : List String :=
  (es.filter (fun e =>
    e.has_alternatives && e.transcript != "" && e.is_final)).map
      (fun e => e.transcript)

/-- Accumulation of final sentences onto an existing transcript, the exact
shape `final_transcript += sentence + " "` produces over a run. -/
def appendFinals (F : String) (ts : List String) : String :=
  ts.foldl (fun acc t => acc ++ t ++ " ") F

/-- Concatenation of the given texts, each followed by a single space. -/
def concatFinals (ts : List String) : String :=
  appendFinals "" ts

/-- The net effect of delivering one transcript message on the session it is
registered to (service mutation by `on_message` composed with the buffer
mutation by `send_transcript_to_client`). -/
def stepSession (sd : Session) (e : TranscriptEvent) : Session :=
  if !e.has_alternatives then sd
  else if e.transcript == "" then sd
  else if e.is_final then
    { sd with
      service := { sd.service with
        final_transcript := sd.service.final_transcript ++ e.transcript ++ " ",
        last_interim := "" },
      transcript_parts := sd.transcript_parts ++ [e.transcript],
      interim_transcript := "" }
  else
    { sd with
      service := { sd.service with last_interim := e.transcript },
      interim_transcript := e.transcript }

/-! ## Concrete fixtures used by witnesses and counterexamples -/

/-- A final transcript message carrying `t`. -/
def evFinal (t : String) : TranscriptEvent :=
  { has_alternatives := true, transcript := t, is_final := true }

/-- An interim transcript message carrying `t`. -/
def evInterim (t : String) : TranscriptEvent :=
  { has_alternatives := true, transcript := t, is_final := false }

/-- Registry after a successful `start_live_transcription` from client
`"c1"` on an empty registry. -/
def regStarted : Registry :=
  (handle_start_live_transcription [] "c1" (some "en-US") true true 0).1

/-- Registry after the started session received two interim messages and
one final message reading "patient reports fever". -/
def regFever : Registry :=
  run_transcript_events regStarted "c1"
    [evInterim "patient", evInterim "patient reports",
     evFinal "patient reports fever"]

/-- Registry after the started session received a final "hello". -/
def regHello : Registry :=
  run_transcript_events regStarted "c1" [evFinal "hello"]

/-- Registry after the started session received finals "a", "" and "b"
(Deepgram does send empty keepalive transcripts). -/
def regEmptyMid : Registry :=
  run_transcript_events regStarted "c1" [evFinal "a", evFinal "", evFinal "b"]

/-- The session value stored by a successful start (language `"en-US"`) at
time `now`. -/
def sessStartedAt (now : Nat) : Session :=
  { service := { final_transcript := "", last_interim := "", active := true,
                 has_connection := true },
    language_code := "en-US", transcript_parts := [],
    interim_transcript := "", start_time := now }

/-- The session value stored in `regStarted` under `"c1"`. -/
def sessStarted : Session :=
  sessStartedAt 0

/-- The session value stored in `regFever` under `"c1"`. -/
def sessFever : Session :=
  { service := { final_transcript := "patient reports fever ",
                 last_interim := "", active := true, has_connection := true },
    language_code := "en-US", transcript_parts := ["patient reports fever"],
    interim_transcript := "", start_time := 0 }

/-- The `original_transcript` field of a leading
`live_transcription_complete` event, if any. -/
def completedOriginal : List Emit → Option String
  | (Emit.live_transcription_complete o _ _ _) :: _ => some o
  | _ => none

/-! ## Registry lemmas -/

lemma find?_dictRemove {α : Type} (reg : List (Sid × α)) (k : Sid) :
    (dictRemove reg k).find? (fun p => p.1 == k) = none := by
  rw [List.find?_eq_none]
  intro x hx
  rw [dictRemove, List.mem_filter] at hx
  simpa using hx.2

lemma dictGet_dictInsert_self {α : Type} (reg : List (Sid × α)) (k : Sid)
    (v : α) : dictGet (dictInsert reg k v) k = some v := by
  simp [dictGet, dictInsert, List.find?_append, find?_dictRemove]

lemma dictContains_dictRemove_self {α : Type} (reg : List (Sid × α))
    (k : Sid) : dictContains (dictRemove reg k) k = false := by
  simp [dictContains, dictGet, find?_dictRemove]

lemma filter_dictRemove_eq_nil {α : Type} (reg : List (Sid × α)) (k : Sid) :
    (dictRemove reg k).filter (fun p => p.1 == k) = [] := by
  rw [List.filter_eq_nil_iff]
  intro x hx
  rw [dictRemove, List.mem_filter] at hx
  simpa using hx.2

lemma countKey_dictInsert_self {α : Type} (reg : List (Sid × α)) (k : Sid)
    (v : α) : countKey (dictInsert reg k v) k = 1 := by
  simp [countKey, dictInsert, List.filter_append, filter_dictRemove_eq_nil]

lemma dictGet_updateSession {α : Type} (reg : List (Sid × α)) (k : Sid)
    (f : α → α) : dictGet (updateSession reg k f) k = (dictGet reg k).map f := by
  induction reg with
  | nil => rfl
  | cons p rest ih =>
    by_cases hk : p.1 = k
    · simp [dictGet, updateSession, List.find?, hk]
    · have hne : ¬ ((p.1 == k) = true) := by simp [hk]
      have hf : (p.1 == k) = false := by simp [hk]
      simp only [updateSession, List.map_cons, if_neg hne]
      simp only [dictGet, List.find?_cons, hf]
      exact ih

/-! ## Characterization of transcript-event delivery -/

lemma deliver_char (reg : Registry) (sid : Sid) (sd : Session)
    (e : TranscriptEvent) (h : dictGet reg sid = some sd) :
    dictGet (deliver_transcript_event reg sid e).1 sid =
      some (stepSession sd e) := by
  rcases e with ⟨ha, t, fi⟩
  cases ha with
  | false =>
    simp [deliver_transcript_event, DeepgramService.on_message, stepSession, h,
      dictGet_updateSession]
  | true =>
    by_cases ht : t = ""
    · subst ht
      simp [deliver_transcript_event, DeepgramService.on_message, stepSession,
        h, dictGet_updateSession]
    · cases fi with
      | false =>
        simp [deliver_transcript_event, DeepgramService.on_message,
          stepSession, send_transcript_to_client, h, ht,
          dictGet_updateSession]
      | true =>
        simp [deliver_transcript_event, DeepgramService.on_message,
          stepSession, send_transcript_to_client, h, ht,
          dictGet_updateSession]

lemma run_char (es : List TranscriptEvent) :
    ∀ (reg : Registry) (sid : Sid) (sd : Session),
      dictGet reg sid = some sd →
      dictGet (run_transcript_events reg sid es) sid =
        some (es.foldl stepSession sd) := by
  induction es with
  | nil => intro reg sid sd h; simpa [run_transcript_events] using h
  | cons e es ih =>
    intro reg sid sd h
    have h1 := deliver_char reg sid sd e h
    simpa [run_transcript_events] using
      ih (deliver_transcript_event reg sid e).1 sid (stepSession sd e) h1

lemma foldl_stepSession_parts (es : List TranscriptEvent) :
    ∀ sd : Session, (es.foldl stepSession sd).transcript_parts =
      sd.transcript_parts ++ committedTexts es := by
  induction es with
  | nil => intro sd; simp [committedTexts]
  | cons e es ih =>
    intro sd
    rw [List.foldl_cons, ih]
    rcases e with ⟨ha, t, fi⟩
    cases ha <;> cases fi <;> by_cases ht : t = "" <;>
      simp [stepSession, committedTexts, ht, List.filter_cons]

lemma foldl_stepSession_final (es : List TranscriptEvent) :
    ∀ sd : Session, (es.foldl stepSession sd).service.final_transcript =
      appendFinals sd.service.final_transcript (committedTexts es) := by
  induction es with
  | nil => intro sd; simp [committedTexts, appendFinals]
  | cons e es ih =>
    intro sd
    rw [List.foldl_cons, ih]
    rcases e with ⟨ha, t, fi⟩
    cases ha <;> cases fi <;> by_cases ht : t = "" <;>
      simp [stepSession, committedTexts, appendFinals, ht, List.filter_cons]

/-! ## Summary-parser lemmas -/

lemma gsms_no_brace (T rt : String)
    (hbr : findIdx (pyStrip rt).toList lbrace = none ∨
           rfindIdx (pyStrip rt).toList rbrace = none) :
    generate_structured_medical_summary T rt = .ok (placeholderSummary T) := by
  simp only [generate_structured_medical_summary]
  rcases hbr with h1 | h1
  · rw [h1]
  · cases h2 : findIdx (pyStrip rt).toList lbrace with
    | none => rfl
    | some a => rw [h1]

lemma gsms_unavailable (T : String) :
    generate_structured_medical_summary T "summary service unavailable" =
      .ok (placeholderSummary T) :=
  gsms_no_brace T "summary service unavailable" (Or.inl (by decide))

/-! ## Claims -/

/-- C1, counterexample: with a session for `"c1"` already active (it has
committed "hello"), a second `start_live_transcription` for `"c1"` is not
rejected: it emits no error at all but a `transcription_started` success
reply, and it does change state — the stored session's committed buffer goes
from `["hello"]` back to `[]`. -/
theorem C1_counterexample :
    dictContains regHello "c1" = true ∧
    (handle_start_live_transcription regHello "c1" (some "en-US") true true 1).2 =
      [Emit.transcription_started] ∧
    ((handle_start_live_transcription regHello "c1" (some "en-US") true true 1).2.all
      fun e => !e.isError) = true ∧
    (dictGet regHello "c1").map Session.transcript_parts = some ["hello"] ∧
    (dictGet (handle_start_live_transcription regHello "c1" (some "en-US") true true 1).1
      "c1").map Session.transcript_parts = some ([] : List String) := by
  refine ⟨by decide, rfl, by decide, by decide, by decide⟩

/-- C1, amended: a second `start_live_transcription` for a connection
identifier that already has an active session is not rejected and emits no
`DuplicateSessionError`-style reply; it answers `transcription_started` and
silently replaces the stored session with a fresh one (empty buffers, the
requested language, a freshly started service), and exactly one session
entry for that identifier remains in the registry. -/
theorem C1_second_start_replaces_session (reg : Registry) (sid : Sid)
    (lang : Option String) (upstream_ok : Bool) (now : Nat)
    (_h : dictContains reg sid = true) :
    (handle_start_live_transcription reg sid lang true upstream_ok now).2 =
      [Emit.transcription_started] ∧
    countKey (handle_start_live_transcription reg sid lang true upstream_ok now).1
      sid = 1 ∧
    dictGet (handle_start_live_transcription reg sid lang true upstream_ok now).1
      sid = some
        { service := (DeepgramService.start_transcription
            { final_transcript := "", last_interim := "", active := false,
              has_connection := false } upstream_ok).1,
          language_code := lang.getD "en-US", transcript_parts := [],
          interim_transcript := "", start_time := now } := by
  refine ⟨rfl, ?_, ?_⟩
  · simp [handle_start_live_transcription, DeepgramService.init,
      countKey_dictInsert_self]
  · simp [handle_start_live_transcription, DeepgramService.init,
      dictGet_dictInsert_self]

/-- C1, witness: instantiation of the amended claim on `regHello`
(duplicate start for `"c1"`). -/
theorem C1_second_start_replaces_session_witness :
    (handle_start_live_transcription regHello "c1" (some "ta-IN") true true 5).2 =
      [Emit.transcription_started] ∧
    countKey (handle_start_live_transcription regHello "c1" (some "ta-IN") true
      true 5).1 "c1" = 1 :=
  ⟨(C1_second_start_replaces_session regHello "c1" (some "ta-IN") true 5
      (by decide)).1,
   (C1_second_start_replaces_session regHello "c1" (some "ta-IN") true 5
      (by decide)).2.1⟩

/-- C2, counterexample: the upstream streaming connection fails
(`upstream_ok = false`, covering "speech service unreachable"), yet the
client receives the `transcription_started` success reply and no error
event at all. -/
theorem C2_counterexample :
    (handle_start_live_transcription [] "c1" none true false 0).2 =
      [Emit.transcription_started] ∧
    ((handle_start_live_transcription [] "c1" none true false 0).2.all
      fun e => !e.isError) = true ∧
    (dictGet (handle_start_live_transcription [] "c1" none true false 0).1
      "c1").map (fun sd => sd.service.active) = some false := by
  refine ⟨rfl, by decide, by decide⟩

/-- C2, amended: only a failure in the synchronous part of
`start_live_transcription` — constructing the service with the API key
missing — produces a structured error event (and then no session is
stored); when the upstream streaming connection fails after construction,
the handler nevertheless replies `transcription_started`, although the
stored session's service never becomes active. -/
theorem C2_start_failure_reporting :
    (∀ (reg : Registry) (sid : Sid) (lang : Option String)
       (upstream_ok : Bool) (now : Nat),
      handle_start_live_transcription reg sid lang false upstream_ok now =
        (reg, [Emit.live_transcription_error "DEEPGRAM_API_KEY missing"])) ∧
    (∀ (reg : Registry) (sid : Sid) (lang : Option String) (now : Nat),
      (handle_start_live_transcription reg sid lang true false now).2 =
        [Emit.transcription_started] ∧
      (dictGet (handle_start_live_transcription reg sid lang true false now).1
        sid).map (fun sd => sd.service.active) = some false) := by
  refine ⟨fun reg sid lang up now => rfl, fun reg sid lang now => ⟨rfl, ?_⟩⟩
  simp [handle_start_live_transcription, DeepgramService.init,
    DeepgramService.start_transcription, dictGet_dictInsert_self]

/-- C3, counterexample: stopping the active "patient reports fever" session
while the summary response is brace-delimited but unparseable JSON produces
a `live_transcription_error` instead of the `live_transcription_complete`
Final Result — no complete event is delivered at all. -/
theorem C3_counterexample :
    (handle_stop_live_transcription regFever "c1"
      (.ok "\x7bnot json\x7d") true "recordings/live.txt").2 =
      [Emit.live_transcription_error
        "Failed to process transcript: JSONDecodeError"] ∧
    ((handle_stop_live_transcription regFever "c1"
      (.ok "\x7bnot json\x7d") true "recordings/live.txt").2.all
        fun e => !e.isComplete) = true := by
  refine ⟨rfl, by decide⟩

/-- C3, amended: when the summary response contains no brace pair, the stop
still delivers a `live_transcription_complete` event whose summary object
carries the explicit placeholder fields; but when the summarization call
throws, or the extracted brace substring fails to parse as JSON, the stop
emits a `live_transcription_error` in place of the Final Result. -/
theorem C3_stop_summary_failure_behavior (reg : Registry) (sid : Sid)
    (sd : Session) (rf : String) (h : dictGet reg sid = some sd) :
    (∀ rt : String,
      (findIdx (pyStrip rt).toList lbrace = none ∨
       rfindIdx (pyStrip rt).toList rbrace = none) →
      (handle_stop_live_transcription reg sid (.ok rt) true rf).2 =
        [Emit.live_transcription_complete (pyStrip sd.service.final_transcript)
          (pyStrip sd.service.final_transcript)
          (placeholderSummary (pyStrip sd.service.final_transcript)) rf]) ∧
    (∀ err : String,
      (handle_stop_live_transcription reg sid (.error err) true rf).2 =
        [Emit.live_transcription_error
          ("Failed to process transcript: " ++ err)]) ∧
    (∀ rt : String,
      generate_structured_medical_summary (pyStrip sd.service.final_transcript)
        rt = .error "JSONDecodeError" →
      (handle_stop_live_transcription reg sid (.ok rt) true rf).2 =
        [Emit.live_transcription_error
          "Failed to process transcript: JSONDecodeError"]) := by
  refine ⟨?_, ?_, ?_⟩
  · intro rt hbr
    simp only [handle_stop_live_transcription, h, finalize_transcription,
      DeepgramService.finish,
      gsms_no_brace (pyStrip sd.service.final_transcript) rt hbr]
    rfl
  · intro err
    simp only [handle_stop_live_transcription, h, finalize_transcription]
  · intro rt hg
    simp only [handle_stop_live_transcription, h, finalize_transcription,
      DeepgramService.finish, hg]
    rfl

/-- C3, witness: instantiation of the amended claim on the
"patient reports fever" session, for a brace-free summary response and for
a summarization call that throws. -/
theorem C3_stop_summary_failure_behavior_witness :
    (handle_stop_live_transcription regFever "c1"
      (.ok "summary service unavailable") true "recordings/live.txt").2 =
      [Emit.live_transcription_complete "patient reports fever"
        "patient reports fever" (placeholderSummary "patient reports fever")
        "recordings/live.txt"] ∧
    (handle_stop_live_transcription regFever "c1" (.error "llm down") true
      "recordings/live.txt").2 =
      [Emit.live_transcription_error "Failed to process transcript: llm down"] := by
  have hm := C3_stop_summary_failure_behavior regFever "c1" sessFever
    "recordings/live.txt" (by decide)
  exact ⟨hm.1 "summary service unavailable" (Or.inl (by decide)),
    hm.2.1 "llm down"⟩

/-- C4, counterexample: on a response whose outermost brace pair is not
valid JSON, the parser does not return the placeholder object — the decode
error propagates as an exception. -/
theorem C4_counterexample :
    generate_structured_medical_summary "note" "\x7bnot json\x7d" =
      .error "JSONDecodeError" ∧
    generate_structured_medical_summary "note" "\x7bnot json\x7d" ≠
      .ok (placeholderSummary "note") := by
  refine ⟨rfl, ?_⟩
  intro hcontra
  rw [show generate_structured_medical_summary "note" "\x7bnot json\x7d" =
    .error "JSONDecodeError" from rfl] at hcontra
  exact Except.noConfusion hcontra

/-- C4, amended: the parser extracts the substring from the first opening
brace to the last closing brace of the stripped response and parses that
substring with `json.loads`; when no such brace pair exists it returns the
placeholder object; but when the extracted substring fails to parse as
JSON, the decode error propagates (an exception is raised) instead of the
placeholder object being returned. -/
theorem C4_brace_extraction_contract (translation rt : String) :
    (∀ a b : Nat, findIdx (pyStrip rt).toList lbrace = some a →
      rfindIdx (pyStrip rt).toList rbrace = some b →
      generate_structured_medical_summary translation rt =
        (match json_loads (String.mk (sliceChars (pyStrip rt).toList a (b + 1)))
         with
         | some v => Except.ok v
         | none => Except.error "JSONDecodeError")) ∧
    ((findIdx (pyStrip rt).toList lbrace = none ∨
      rfindIdx (pyStrip rt).toList rbrace = none) →
      generate_structured_medical_summary translation rt =
        .ok (placeholderSummary translation)) ∧
    generate_structured_medical_summary translation
      "pre \x7b\"summary\": \"ok\"\x7d post" =
      .ok (.obj [("summary", .str "ok")]) := by
  refine ⟨?_, gsms_no_brace translation rt, rfl⟩
  intro a b h1 h2
  simp only [generate_structured_medical_summary, h1, h2]

/-- C4, witness: instantiation of the amended claim, extracting and parsing
the brace pair of `"x \x7b\"a\": 1\x7d y"` (indices 2 and 9), and taking the
placeholder branch on a brace-free response. -/
theorem C4_brace_extraction_contract_witness :
    generate_structured_medical_summary "tr" "x \x7b\"a\": 1\x7d y" =
      .ok (.obj [("a", .num "1")]) ∧
    generate_structured_medical_summary "tr" "no braces here" =
      .ok (placeholderSummary "tr") := by
  refine ⟨?_, ?_⟩
  · have h := (C4_brace_extraction_contract "tr" "x \x7b\"a\": 1\x7d y").1 2 9
      (by decide) (by decide)
    exact h
  · exact (C4_brace_extraction_contract "tr" "no braces here").2.1
      (Or.inl (by decide))

/-- C5, counterexample: a final event whose transcript is the empty string
(Deepgram keepalive) is dropped by `on_message`, so `transcript_parts` ends
up `[]` although the texts of the events marked final are `[""]` — the
buffer does not contain exactly the final-event texts. -/
theorem C5_counterexample :
    (dictGet (run_transcript_events regStarted "c1" [evFinal ""]) "c1").map
      Session.transcript_parts = some ([] : List String) ∧
    finalTexts [evFinal ""] = [""] ∧
    ¬ ((dictGet (run_transcript_events regStarted "c1" [evFinal ""]) "c1").map
        Session.transcript_parts = some (finalTexts [evFinal ""])) := by
  refine ⟨by decide, by decide, by decide⟩

/-- C5, amended: for every sequence of transcript events delivered to a
registered session, `transcript_parts` afterwards equals its previous
contents followed by exactly the non-empty texts of the events marked final
(events with no alternatives or an empty transcript are dropped), in
arrival order; interim text is never appended. -/
theorem C5_transcript_parts_committed (reg : Registry) (sid : Sid)
    (sd : Session) (es : List TranscriptEvent)
    (h : dictGet reg sid = some sd) :
    (dictGet (run_transcript_events reg sid es) sid).map
      Session.transcript_parts =
      some (sd.transcript_parts ++ committedTexts es) := by
  rw [run_char es reg sid sd h]
  simp [foldl_stepSession_parts]

/-- C5, witness: instantiation on the freshly started session with one
interim and two final events. -/
theorem C5_transcript_parts_committed_witness :
    (dictGet (run_transcript_events regStarted "c1"
      [evInterim "x", evFinal "a", evFinal "b"]) "c1").map
      Session.transcript_parts = some ["a", "b"] := by
  have h := C5_transcript_parts_committed regStarted "c1" sessStarted
    [evInterim "x", evFinal "a", evFinal "b"] (by decide)
  simpa using h

/-- C6, counterexample: with final events "a", "" and "b", the delivered
`original_transcript` is `"a b"` (the empty final is dropped before
concatenation), while the final-event texts concatenated with a single
space each and trimmed give `"a  b"` — so the delivered transcript does not
equal the formula the claim states. -/
theorem C6_counterexample :
    completedOriginal (handle_stop_live_transcription regEmptyMid "c1"
      (.ok "summary service unavailable") true "recordings/live.txt").2 =
      some "a b" ∧
    pyStrip (concatFinals (finalTexts [evFinal "a", evFinal "", evFinal "b"])) =
      "a  b" ∧
    ¬ (completedOriginal (handle_stop_live_transcription regEmptyMid "c1"
        (.ok "summary service unavailable") true "recordings/live.txt").2 =
      some (pyStrip (concatFinals
        (finalTexts [evFinal "a", evFinal "", evFinal "b"])))) := by
  refine ⟨by decide, by decide, by decide⟩

/-- C6, amended: for every session started successfully and fed any
sequence of transcript events, the stop delivers a single
`live_transcription_complete` event whose `original_transcript` (and
`english_transcript`) equal the non-empty final-event texts concatenated in
arrival order, each followed by a single space, with surrounding whitespace
stripped; in particular for two interim events followed by one final event
"patient reports fever" the delivered transcript is exactly
"patient reports fever". -/
theorem C6_final_transcript_concatenation :
    (∀ (sid : Sid) (es : List TranscriptEvent) (now : Nat) (rf : String),
      (handle_stop_live_transcription
        (run_transcript_events
          (handle_start_live_transcription [] sid (some "en-US") true true now).1
          sid es)
        sid (.ok "summary service unavailable") true rf).2 =
      [Emit.live_transcription_complete
        (pyStrip (concatFinals (committedTexts es)))
        (pyStrip (concatFinals (committedTexts es)))
        (placeholderSummary (pyStrip (concatFinals (committedTexts es)))) rf]) ∧
    pyStrip (concatFinals (committedTexts
      [evInterim "patient", evInterim "patient reports",
       evFinal "patient reports fever"])) = "patient reports fever" := by
  constructor
  · intro sid es now rf
    have h0 : dictGet
        (handle_start_live_transcription [] sid (some "en-US") true true now).1
        sid = some (sessStartedAt now) := by
      simp [handle_start_live_transcription, DeepgramService.init,
        DeepgramService.start_transcription, dictGet_dictInsert_self,
        sessStartedAt]
    have h1 := run_char es _ sid _ h0
    have h2 : (es.foldl stepSession (sessStartedAt now)).service.final_transcript
        = concatFinals (committedTexts es) := by
      rw [foldl_stepSession_final]
      rfl
    simp only [handle_stop_live_transcription, h1, finalize_transcription,
      DeepgramService.finish, h2,
      gsms_unavailable (pyStrip (concatFinals (committedTexts es)))]
    rfl
  · decide

/-- C7: stopping with no active session registered for the connection emits
exactly one `live_transcription_error` whose message is
"No active transcription session", leaves the registry untouched, and does
not crash — never a silent no-op. -/
theorem C7_stop_without_session_error (reg : Registry) (sid : Sid)
    (llm_result : Except String String) (write_ok : Bool) (rf : String)
    (h : dictGet reg sid = none) :
    handle_stop_live_transcription reg sid llm_result write_ok rf =
      (reg, [Emit.live_transcription_error "No active transcription session"]) := by
  simp [handle_stop_live_transcription, h]

/-- C7, witness: a stop with no prior start on the empty registry. -/
theorem C7_stop_without_session_error_witness :
    handle_stop_live_transcription [] "c1" (.ok "x") true "recordings/live.txt" =
      ([], [Emit.live_transcription_error "No active transcription session"]) :=
  C7_stop_without_session_error [] "c1" (.ok "x") true "recordings/live.txt" rfl

/-- C8: finishing a transcription session to which no audio was ever sent
and for which no transcript events arrived returns the empty string and not
an error — both for a service whose upstream connection was started (with
either outcome) and for a freshly constructed service that was never
started. -/
theorem C8_finish_empty_session :
    (∀ (s0 : DGState) (upstream_ok : Bool),
      (DeepgramService.finish
        (DeepgramService.start_transcription s0 upstream_ok).1).2 = "") ∧
    (DeepgramService.finish
      { final_transcript := "", last_interim := "", active := false,
        has_connection := false }).2 = "" := by
  constructor
  · intro s0 up
    cases up <;> rfl
  · rfl

/-- C9: disconnect cleanup — after `handle_disconnect` the identifier is no
longer registered; disconnecting an identifier that is not registered
changes nothing (and raises no error); and a subsequent start for the same
identifier succeeds with a `transcription_started` reply and a stored
session, never a duplicate-session rejection. -/
theorem C9_disconnect_cleanup :
    (∀ (reg : Registry) (sid : Sid),
      dictContains (handle_disconnect reg sid) sid = false) ∧
    (∀ (reg : Registry) (sid : Sid),
      dictContains reg sid = false → handle_disconnect reg sid = reg) ∧
    (∀ (reg : Registry) (sid : Sid) (lang : Option String)
       (upstream_ok : Bool) (now : Nat),
      (handle_start_live_transcription (handle_disconnect reg sid) sid lang
        true upstream_ok now).2 = [Emit.transcription_started] ∧
      dictContains (handle_start_live_transcription (handle_disconnect reg sid)
        sid lang true upstream_ok now).1 sid = true) := by
  refine ⟨?_, ?_, ?_⟩
  · intro reg sid
    cases hc : dictContains reg sid with
    | true => simp [handle_disconnect, hc, dictContains_dictRemove_self]
    | false => simp [handle_disconnect, hc]
  · intro reg sid h
    simp [handle_disconnect, h]
  · intro reg sid lang up now
    refine ⟨rfl, ?_⟩
    simp [handle_start_live_transcription, DeepgramService.init, dictContains,
      dictGet_dictInsert_self]

/-- C9, witness: disconnecting the active "patient reports fever" session
removes it; disconnecting on the empty registry is the identity; a restart
afterwards is accepted. -/
theorem C9_disconnect_cleanup_witness :
    dictContains (handle_disconnect regFever "c1") "c1" = false ∧
    handle_disconnect [] "c1" = [] ∧
    (handle_start_live_transcription (handle_disconnect regFever "c1") "c1"
      (some "en-US") true true 7).2 = [Emit.transcription_started] :=
  ⟨C9_disconnect_cleanup.1 regFever "c1",
   C9_disconnect_cleanup.2.1 [] "c1" (by decide),
   (C9_disconnect_cleanup.2.2 regFever "c1" (some "en-US") true 7).1⟩

/-- C10: once `stop_live_transcription` has been processed for a registered
session, the entry is removed from `active_transcriptions` for every
outcome of the summary generation and of the transcript-file write, and a
later start with the same connection identifier is answered with
`transcription_started` (never a duplicate rejection of the stopped
session). -/
theorem C10_stop_always_removes_session (reg : Registry) (sid : Sid)
    (sd : Session) (llm_result : Except String String) (write_ok : Bool)
    (rf : String) (h : dictGet reg sid = some sd) :
    dictContains
      (handle_stop_live_transcription reg sid llm_result write_ok rf).1 sid =
      false ∧
    (handle_start_live_transcription
      (handle_stop_live_transcription reg sid llm_result write_ok rf).1 sid
      (some "en-US") true true 0).2 = [Emit.transcription_started] := by
  constructor
  · simp [handle_stop_live_transcription, h, finalize_transcription,
      dictContains_dictRemove_self]
  · rfl

/-- C10, witness: stopping the "patient reports fever" session with a
failing summarization call and a failing file write still removes the
entry. -/
theorem C10_stop_always_removes_session_witness :
    dictContains (handle_stop_live_transcription regFever "c1"
      (.error "llm down") false "recordings/live.txt").1 "c1" = false :=
  (C10_stop_always_removes_session regFever "c1" sessFever (.error "llm down")
    false "recordings/live.txt" (by decide)).1

end VoiceDictation
